import Mathlib

/-!
Shallow embedding of the Auto input-automation library (Rust) and proofs
about its native-handle, event-construction, and screen-sampling layers.

Machine floating-point values only matter to this code through finiteness
tests and verbatim pass-through, so `f64` is embedded as an inductive with
an exact finite payload and the three non-finite shapes. Raw native
pointers are embedded as naturals with `0` playing the role of null.
Native calls whose results the code consumes are oracles passed in as
function arguments, and functions that perform externally visible native
calls return a record of the call they made.
-/

/-- Model of an `f64` value: a finite rational, or one of the non-finite
shapes `NaN`, `+inf`, `-inf`. -/
inductive F64 where
  | finite (q : ℚ)
  | nan
  | posInf
  | negInf
deriving DecidableEq

/-- Model of `f64::is_finite`. -/
def F64.isFinite : F64 → Bool
  | .finite _ => true
  | _ => false

/-- Model of a Rust `f64 as u8` saturating cast. -/
def f64toU8 : F64 → ℕ
  | .finite q => if q < 0 then 0 else min 255 q.floor.toNat
  | .nan => 0
  | .posInf => 255
  | .negInf => 0

/-- Model of `CGPoint` (os/macos/mod.rs); on 64-bit targets `CGFloat = f64`. -/
structure CGPoint where
  x : F64
  y : F64
deriving DecidableEq

/-- Model of `CGSize` (os/macos/mod.rs). -/
structure CGSize where
  width : F64
  height : F64
deriving DecidableEq

/-- Model of `CGRect` (os/macos/mod.rs). -/
structure CGRect where
  origin : CGPoint
  size : CGSize
deriving DecidableEq

/-- Modelled from the spec: `CGRect::new` is called in os/macos/screen.rs
line 414 but its definition is not among the provided sources. Spec section
4.5 step 1 says the call builds a rectangle at `(x, y)` with the given
width and height, so `new x y w h` is the rectangle with origin `(x, y)`
and size `(w, h)`. -/
def CGRect.new (x y w h : F64) : CGRect := ⟨⟨x, y⟩, ⟨w, h⟩⟩

/-- Model of the `Location` type alias `(f64, f64)` (os/macos/mouse.rs). -/
def Location : Type := F64 × F64

/-- Model of `impl From<CGPoint> for Location` (os/macos/mouse.rs lines
50-55): the casts are identities on a 64-bit target. -/
def locationFromCGPoint (p : CGPoint) : Location := (p.x, p.y)

/-- Model of `impl From<Location> for CGPoint` (os/macos/mouse.rs lines
57-62): field-by-field conversion, identity casts on a 64-bit target. -/
def cgPointFromLocation : Location → CGPoint
  | (x, y) => ⟨x, y⟩

/-- Model of `warp_location` (os/macos/mouse.rs lines 42-45). The function
body is a single unconditional native call; the result records the
`CGPoint` argument handed to `CGWarpMouseCursorPosition`, with `some p`
meaning the native call was invoked with `p` and `none` reserved for a
guarded skip, which the source never takes. -/
def warp_location (loc : Location) : Option CGPoint :=
  some (cgPointFromLocation loc)

/-- Model of `CGEventType` (os/macos/mod.rs lines 125-155). -/
inductive CGEventType where
  | null
  | leftMouseDown
  | leftMouseUp
  | rightMouseDown
  | rightMouseUp
  | mouseMoved
  | leftMouseDragged
  | rightMouseDragged
  | keyDown
  | keyUp
  | flagsChanged
  | scrollWheel
  | tabletPointer
  | tabletProximity
  | otherMouseDown
  | otherMouseUp
  | otherMouseDragged
  | tapDisabledByTimeout
  | tapDisabledByUserInput
deriving DecidableEq

/-- Model of mouse `Button` (os/macos/mouse.rs lines 66-71). -/
inductive Button where
  | left
  | right
deriving DecidableEq

/-- Model of mouse `EventKind` (os/macos/mouse.rs lines 129-138). -/
inductive EventKind where
  | down
  | up
  | moved
  | dragged
deriving DecidableEq

/-- Model of `impl From<(Button, EventKind)> for CGEventType`
(os/macos/mouse.rs lines 73-87): the fixed eight-entry match table. -/
def cgEventTypeFrom : Button × EventKind → CGEventType
  | (.left, .down) => .leftMouseDown
  | (.left, .up) => .leftMouseUp
  | (.left, .moved) => .mouseMoved
  | (.left, .dragged) => .leftMouseDragged
  | (.right, .down) => .rightMouseDown
  | (.right, .up) => .rightMouseUp
  | (.right, .moved) => .mouseMoved
  | (.right, .dragged) => .rightMouseDragged

/-- Model of `button as raw::c_int`: the enum discriminants of `Button`. -/
def buttonCode : Button → ℕ
  | .left => 0
  | .right => 1

/-- Model of `CFObject` (os/macos/mod.rs line 75): a wrapper around a raw
native reference. The Rust field type is `NonNull`, but the mouse
constructor transmutes an unchecked raw pointer into it, so the model
keeps the raw value, with `0` for null. -/
structure CFObject where
  ref : ℕ
deriving DecidableEq

/-- Model of the core `Event` struct (os/macos/mod.rs line 167). -/
structure Event where
  obj : CFObject
deriving DecidableEq

/-- Whether the wrapped native reference of an event is null. -/
def Event.isNullHandle (e : Event) : Bool := e.obj.ref == 0

/-- Model of the mouse-module `Event` declared by `declare_event!`
(os/macos/mouse.rs line 89): a newtype around the core `Event`. -/
structure MouseEvent where
  core : Event
deriving DecidableEq

/-- Model of the keyboard-module `Event` declared by `declare_event!`
(os/macos/keyboard/mod.rs line 19). -/
structure KeyboardEvent where
  core : Event
deriving DecidableEq

/-- Record of one `CGEventCreateMouseEvent` invocation: the event type,
cursor position and button code passed (the source event is null). -/
structure MouseCreateCall where
  eventType : CGEventType
  position : CGPoint
  button : ℕ
deriving DecidableEq

/-- Model of `MouseEvent::new` (os/macos/mouse.rs lines 95-105). The
native constructor is the oracle `native`, returning the raw pointer
value that `CGEventCreateMouseEvent` produced; the source transmutes that
raw pointer into `Event` with no null check. -/
def MouseEvent.new (button : Button) (kind : EventKind) (loc : Location)
    (native : MouseCreateCall → ℕ) : MouseEvent :=
  MouseEvent.mk (Event.mk (CFObject.mk
    (native ⟨cgEventTypeFrom (button, kind), cgPointFromLocation loc,
      buttonCode button⟩)))

/-- Model of `KeyboardEvent::new` (os/macos/keyboard/mod.rs lines 21-29).
The oracle `native` is `CGEventCreateKeyboardEvent` on `(key, down)`,
returning the raw pointer value; the extern declaration types the result
directly as a wrapped handle, so the value is wrapped verbatim. -/
def KeyboardEvent.new (key : ℕ) (down : Bool) (native : ℕ → Bool → ℕ) :
    KeyboardEvent :=
  KeyboardEvent.mk (Event.mk (CFObject.mk (native key down)))

/-- Model of `ScrollUnit` (os/macos/wheel.rs lines 21-27). -/
inductive ScrollUnit where
  | pixel
  | line
deriving DecidableEq

/-- Model of `unit as raw::c_int`: the enum discriminants of `ScrollUnit`. -/
def scrollUnitCode : ScrollUnit → ℕ
  | .pixel => 0
  | .line => 1

/-- Model of the sealed `Wheels` trait (os/macos/wheel.rs lines 75-84):
`impl_wheels! { 1 2 3 }` makes `[i32; 1]`, `[i32; 2]` and `[i32; 3]` the
only types implementing it, so a value of the trait-bounded argument type
is exactly one of these three array shapes. -/
inductive Wheels where
  | one (w1 : ℤ)
  | two (w1 w2 : ℤ)
  | three (w1 w2 w3 : ℤ)
deriving DecidableEq

/-- Model of `AsRef<[i32]>` for the three `Wheels` array types. -/
def Wheels.asRef : Wheels → List ℤ
  | .one a => [a]
  | .two a b => [a, b]
  | .three a b c => [a, b, c]

/-- Record of one `CGEventCreateScrollWheelEvent` invocation: the units
code, the wheel count, and the variadic wheel arguments passed. -/
structure ScrollWheelCall where
  units : ℕ
  wheelCount : ℕ
  wheels : List ℤ
deriving DecidableEq

/-- Model of `WheelEvent::new` (os/macos/wheel.rs lines 53-71): take the
slice of the wheels array, match on its length, and invoke the 1-, 2- or
3-argument shape of the native variadic constructor. The oracle `native`
returns the raw handle; the result pairs the wrapped event with the
record of the native call made. -/
def wheel_Event_new (unit : ScrollUnit) (wheels : Wheels)
    (native : ScrollWheelCall → ℕ) : Event × ScrollWheelCall :=
  let slice := wheels.asRef
  let count := slice.length
  let u := scrollUnitCode unit
  let call : ScrollWheelCall :=
    match count with
    | 1 => ⟨u, count, [slice.getD 0 0]⟩
    | 2 => ⟨u, count, [slice.getD 0 0, slice.getD 1 0]⟩
    | _ => ⟨u, count, [slice.getD 0 0, slice.getD 1 0, slice.getD 2 0]⟩
  (Event.mk (CFObject.mk (native call)), call)

/-- Model of `EventLocation` (os/macos/mod.rs lines 239-249). -/
inductive EventLocation where
  | hid
  | session
  | annotatedSession
deriving DecidableEq

/-- Model of `location as raw::c_int` in `Event::post`. -/
def eventLocationCode : EventLocation → ℕ
  | .hid => 0
  | .session => 1
  | .annotatedSession => 2

/-- State of a native Quartz event as far as this layer reads and writes
it: its `CGEventFlags` bit-set (a `u64`). `CGEventGetFlags` and
`CGEventSetFlags` are reads and writes of this stored field. -/
structure QuartzEventState where
  flags : ℕ
deriving DecidableEq

/-- Model of the native `CGEventGetFlags` call. -/
def CGEventGetFlags (e : QuartzEventState) : ℕ := e.flags

/-- Model of the native `CGEventSetFlags` call. -/
def CGEventSetFlags (_e : QuartzEventState) (f : ℕ) : QuartzEventState :=
  ⟨f⟩

/-- Model of `Event::flags` (os/macos/mod.rs lines 185-187). -/
def Event.flags (e : QuartzEventState) : ℕ := CGEventGetFlags e

/-- Model of `Event::set_flags` (os/macos/mod.rs lines 191-193). -/
def Event.set_flags (e : QuartzEventState) (f : ℕ) : QuartzEventState :=
  CGEventSetFlags e f

/-- Model of `Event::enable_flags` (os/macos/mod.rs lines 197-200): read
the current flags, bitwise-OR in the given set, write back. -/
def Event.enable_flags (e : QuartzEventState) (f : ℕ) : QuartzEventState :=
  Event.set_flags e (Nat.lor (Event.flags e) f)

/-- Model of `Event::post` (os/macos/mod.rs lines 179-181):
`CGEventPost(location as c_int, handle)` appends the event to the global
stream. The method takes `&self`, so the in-process event state comes
back unchanged in the first component. -/
def Event.post (e : QuartzEventState) (loc : EventLocation)
    (stream : List (ℕ × QuartzEventState)) :
    QuartzEventState × List (ℕ × QuartzEventState) :=
  (e, stream ++ [(eventLocationCode loc, e)])

/-- Iterated posting of the same event value `n` times. -/
def Event.postN : ℕ → QuartzEventState → EventLocation →
    List (ℕ × QuartzEventState) →
    QuartzEventState × List (ℕ × QuartzEventState)
  | 0, e, _, s => (e, s)
  | n + 1, e, loc, s =>
      Event.postN n (Event.post e loc s).1 loc (Event.post e loc s).2

/-- Model of `LocationIter` (os/macos/mouse.rs lines 144-147): the struct
holds only the static `NSEvent` class reference and no location data, so
it carries no cache. -/
structure LocationIter where
  ns_event : Unit
deriving DecidableEq

/-- Model of the live `mouseLocation` query, as a time-indexed oracle
for the current cursor position. -/
def location_from (os : ℕ → Location) (t : ℕ) : Location := os t

/-- Model of `Iterator::next` for `LocationIter` (os/macos/mouse.rs lines
159-161): unconditionally `Some` of a fresh live query. -/
def LocationIter.next (_it : LocationIter) (os : ℕ → Location) (t : ℕ) :
    Option Location :=
  some (location_from os t)

/-- Model of `Iterator::size_hint` for `LocationIter` (os/macos/mouse.rs
lines 164-166): `(usize::max_value(), None)` on a 64-bit target. -/
def LocationIter.size_hint (_it : LocationIter) : ℕ × Option ℕ :=
  (2 ^ 64 - 1, none)

/-- Model of an RGB triplet with `u8` components (src/color.rs). -/
structure Rgb where
  red : ℕ
  green : ℕ
  blue : ℕ
deriving DecidableEq

/-- Model of `Display` (os/macos/screen.rs line 110): a `u32` identifier. -/
structure Display where
  id : ℕ
deriving DecidableEq

/-- Oracles for the native screen calls consumed by `Colors::next`:
`CGDisplayCreateImageForRect` (returning `none` when the OS yields no
image) and the bitmap pixel read, which produces the three `CGFloat`
color components for a bitmap handle and image handle. -/
structure ScreenEnv where
  createImageForRect : Display → CGRect → Option ℕ
  readPixel : ℕ → ℕ → F64 × F64 × F64

/-- Model of the `Colors` iterator state (os/macos/screen.rs lines
395-402): the `NSBitmapImageRep` handle allocated once at construction,
the display, and the mutable position. -/
structure Colors where
  bitmap : ℕ
  display : Display
  pos : Location

/-- Model of `Colors::new` (os/macos/screen.rs lines 447-450);
`allocBitmap` is the handle produced by the one-time `NSObject::alloc`
of the `NSBitmapImageRep` class. -/
def Colors.new (allocBitmap : ℕ) (display : Display) (pos : Location) :
    Colors :=
  ⟨allocBitmap, display, pos⟩

/-- Model of `Colors::next` (os/macos/screen.rs lines 407-436). Returns
the yielded item together with the number of native image-capture calls
performed during this advance: a non-finite coordinate returns `None`
before any capture; otherwise `CGDisplayCreateImageForRect` is invoked
once and its `None` is propagated, else the single pixel is read out of
the bitmap and returned with each `CGFloat` component cast to `u8`. -/
def Colors.next (env : ScreenEnv) (c : Colors) : Option Rgb × ℕ :=
  if !(c.pos.1.isFinite && c.pos.2.isFinite) then
    (none, 0)
  else
    let rect := CGRect.new c.pos.1 c.pos.2 (F64.finite 1) (F64.finite 1)
    match env.createImageForRect c.display rect with
    | none => (none, 1)
    | some img =>
        let rgb := env.readPixel c.bitmap img
        (some ⟨f64toU8 rgb.1, f64toU8 rgb.2.1, f64toU8 rgb.2.2⟩, 1)

/-- Model of `Display::color_at` (os/macos/screen.rs lines 354-356):
`self.colors(pos).next()`. -/
def Display.color_at (env : ScreenEnv) (allocBitmap : ℕ) (d : Display)
    (pos : Location) : Option Rgb :=
  (Colors.next env (Colors.new allocBitmap d pos)).1

/-- Model of the winapi `GetRValue` macro: the low byte of a COLORREF. -/
def GetRValue (c : ℕ) : ℕ := c % 256

/-- Model of the winapi `GetGValue` macro: the second byte of a COLORREF. -/
def GetGValue (c : ℕ) : ℕ := c / 256 % 256

/-- Model of the winapi `GetBValue` macro: the third byte of a COLORREF. -/
def GetBValue (c : ℕ) : ℕ := c / 65536 % 256

/-- Oracles for the native calls of the Windows `color_at`: `GetDC`
(`none` models a null device context) and `GetPixel` on the device
context and coordinates, returning a COLORREF. -/
structure WinEnv where
  getDC : Option ℕ
  getPixel : ℕ → ℕ → ℕ → ℕ

/-- Model of the Windows `color_at` (os/windows/screen.rs lines 11-30),
traced statement by statement. The second component counts the
`ReleaseDC` calls executed before the function returned: the null-DC
return releases nothing, the `0xFFFFFFFF` invalid-pixel early return
executes no `ReleaseDC`, and the success path releases once. -/
def win_color_at (env : WinEnv) (x y : ℕ) : Option Rgb × ℕ :=
  match env.getDC with
  | none => (none, 0)
  | some hdc =>
      let color := env.getPixel hdc x y % 2 ^ 32
      if color = 0xFFFFFFFF then
        (none, 0)
      else
        (some ⟨GetRValue color, GetGValue color, GetBValue color⟩, 1)

/-- Kinds of native release calls emitted by the destructors. -/
inductive NativeRelease where
  | cfRelease (h : ℕ)
  | nsRelease (h : ℕ)
  | cgImageRelease (h : ℕ)
deriving DecidableEq

/-- Model of `Drop for CFObject` (os/macos/mod.rs lines 75-77): the list
of native release calls one execution of the drop glue emits. -/
def cfObjectDrop (h : ℕ) : List NativeRelease := [.cfRelease h]

/-- Model of `Drop for NSObject` (os/macos/mod.rs lines 79-82). -/
def nsObjectDrop (h : ℕ) : List NativeRelease := [.nsRelease h]

/-- Model of `Drop for CGImage` (os/macos/screen.rs lines 82-86). -/
def cgImageDrop (h : ℕ) : List NativeRelease := [.cgImageRelease h]

/-- Model of `App::pid` (os/macos/app.rs lines 99-104): match the native
`processIdentifier` reply, mapping the sentinel `-1` to `None` and any
other reported identifier to `Some`. -/
def App.pid (processIdentifier : ℤ) : Option ℤ :=
  if processIdentifier = -1 then none else some processIdentifier

/-- C1: evaluation of the Windows `color_at` at the failing input. When
`GetDC` succeeds and `GetPixel` reports the invalid color `0xFFFFFFFF`,
the early return executes zero `ReleaseDC` calls, so the acquired device
context is not released on that exit path, while the success path does
release it exactly once; the three macOS destructors each emit exactly
one native release per run. -/
theorem win_color_at_leaks_dc_on_invalid_pixel :
    win_color_at ⟨some 1, fun _ _ _ => 0xFFFFFFFF⟩ 0 0 = (none, 0) ∧
    win_color_at ⟨some 1, fun _ _ _ => 0x00010203⟩ 0 0 =
      (some ⟨3, 2, 1⟩, 1) ∧
    (cfObjectDrop 7).length = 1 ∧
    (nsObjectDrop 7).length = 1 ∧
    (cgImageDrop 7).length = 1 := by
  decide

/-- C2 counterexample: when the native event constructor returns the null
pointer, both `MouseEvent::new` and `KeyboardEvent::new` hand back an
event wrapping a null handle instead of a typed absence — their results
are not optional and the null is wrapped verbatim. -/
theorem event_new_wraps_null_cex :
    (MouseEvent.new .left .down (F64.finite 0, F64.finite 0)
      (fun _ => 0)).core.isNullHandle = true ∧
    (KeyboardEvent.new 0 true (fun _ _ => 0)).core.isNullHandle = true :=
  ⟨rfl, rfl⟩

/-- C2 amended: the typed event constructors wrap the raw native return
value verbatim — whatever pointer value the native call produced, null
included, becomes the stored handle, and no optional absence exists. -/
theorem event_new_wraps_native_verbatim (b : Button) (k : EventKind)
    (loc : Location) (key : ℕ) (down : Bool)
    (mret : MouseCreateCall → ℕ) (kret : ℕ → Bool → ℕ) :
    (MouseEvent.new b k loc mret).core.obj.ref =
      mret ⟨cgEventTypeFrom (b, k), cgPointFromLocation loc, buttonCode b⟩ ∧
    (KeyboardEvent.new key down kret).core.obj.ref = kret key down :=
  ⟨rfl, rfl⟩

/-- C3: `wheel::Event::new` passes the wheel count equal to the length of
the delta array, forwards exactly the deltas of the array as the variadic
arguments of the matching 1-, 2- or 3-argument native overload, and the
argument type admits exactly the arrays of length 1, 2 or 3: every
`Wheels` value has such a length, and a delta list is representable as a
`Wheels` value precisely when its length is 1, 2 or 3. -/
theorem wheel_new_dispatch_and_bounds (unit : ScrollUnit) (w : Wheels)
    (native : ScrollWheelCall → ℕ) :
    ((wheel_Event_new unit w native).2).wheelCount = w.asRef.length ∧
    ((wheel_Event_new unit w native).2).wheels = w.asRef ∧
    ((wheel_Event_new unit w native).2).units = scrollUnitCode unit ∧
    (w.asRef.length = 1 ∨ w.asRef.length = 2 ∨ w.asRef.length = 3) ∧
    (∀ l : List ℤ, (∃ w2 : Wheels, w2.asRef = l) ↔
      (l.length = 1 ∨ l.length = 2 ∨ l.length = 3)) := by
  refine ⟨?_, ?_, ?_, ?_, ?_⟩
  · cases w <;> rfl
  · cases w <;> rfl
  · cases w <;> rfl
  · cases w <;> simp [Wheels.asRef]
  · intro l
    constructor
    · rintro ⟨w2, rfl⟩
      cases w2 <;> simp [Wheels.asRef]
    · intro h
      rcases l with _ | ⟨a, _ | ⟨b, _ | ⟨c, _ | ⟨d, tl⟩⟩⟩⟩
      · simp at h
      · exact ⟨.one a, rfl⟩
      · exact ⟨.two a b, rfl⟩
      · exact ⟨.three a b c, rfl⟩
      · simp [List.length_cons] at h

/-- C3 witness: the dispatch theorem applied at unit `Line` with the
two-delta array `[3, 4]`, and the representability direction applied to
a concrete three-delta list. -/
theorem wheel_new_dispatch_and_bounds_witness :
    ((wheel_Event_new .line (.two 3 4) (fun _ => 7)).2).wheelCount = 2 ∧
    ((wheel_Event_new .line (.two 3 4) (fun _ => 7)).2).wheels = [3, 4] ∧
    (∃ w2 : Wheels, w2.asRef = [9, 8, 7]) := by
  refine ⟨?_, ?_, ?_⟩
  · have h := (wheel_new_dispatch_and_bounds .line (.two 3 4)
      (fun _ => 7)).1
    simpa [Wheels.asRef] using h
  · have h := (wheel_new_dispatch_and_bounds .line (.two 3 4)
      (fun _ => 7)).2.1
    simpa [Wheels.asRef] using h
  · exact ((wheel_new_dispatch_and_bounds .line (.two 3 4)
      (fun _ => 7)).2.2.2.2 [9, 8, 7]).mpr (by simp)

/-- C4: whenever either coordinate of the position is non-finite (NaN or
an infinity), `Colors::next` yields `None` and performs zero native
image-capture calls, and `Display::color_at` at that position yields
`None`. -/
theorem colors_nonfinite_no_capture (env : ScreenEnv) (a : ℕ)
    (d : Display) (c : Colors)
    (h : c.pos.1.isFinite = false ∨ c.pos.2.isFinite = false) :
    Colors.next env c = (none, 0) ∧
    Display.color_at env a d c.pos = none := by
  have hx : (!(c.pos.1.isFinite && c.pos.2.isFinite)) = true := by
    rcases h with h | h <;> simp [h]
  constructor
  · simp [Colors.next, hx]
  · simp [Display.color_at, Colors.next, Colors.new, hx]

/-- C4 witness: the non-finite guard theorem applied at a NaN x
coordinate, with a capture oracle that would return an image. -/
theorem colors_nonfinite_no_capture_witness :
    Colors.next
      ⟨fun _ _ => some 5,
        fun _ _ => (F64.finite 0, F64.finite 0, F64.finite 0)⟩
      ⟨0, ⟨0⟩, (F64.nan, F64.finite 0)⟩ = (none, 0) ∧
    Display.color_at
      ⟨fun _ _ => some 5,
        fun _ _ => (F64.finite 0, F64.finite 0, F64.finite 0)⟩
      0 ⟨0⟩ (F64.nan, F64.finite 0) = none :=
  colors_nonfinite_no_capture _ 0 ⟨0⟩ ⟨0, ⟨0⟩, (F64.nan, F64.finite 0)⟩
    (Or.inl rfl)

/-- C5 counterexample: at the location whose x coordinate is NaN, the
native warp call is invoked and the point it receives carries the NaN
verbatim — the non-finite value is propagated into the native call. -/
theorem warp_location_propagates_nan_cex :
    warp_location (F64.nan, F64.finite 0) = some ⟨F64.nan, F64.finite 0⟩ ∧
    F64.isFinite F64.nan = false :=
  ⟨rfl, rfl⟩

/-- C5 amended: `warp_location` performs no finiteness guard — for every
location it invokes the native call exactly once with the location
converted verbatim into the native point, non-finite components
included. -/
theorem warp_location_passes_verbatim (x y : F64) :
    warp_location (x, y) = some ⟨x, y⟩ :=
  rfl

/-- C6: the mouse event-type mapping is the fixed eight-entry table,
with both `Moved` entries sharing `MouseMoved` and the two `Down`
entries mapping to distinct native event types. -/
theorem mouse_event_type_table :
    cgEventTypeFrom (.left, .down) = .leftMouseDown ∧
    cgEventTypeFrom (.left, .up) = .leftMouseUp ∧
    cgEventTypeFrom (.left, .dragged) = .leftMouseDragged ∧
    cgEventTypeFrom (.right, .down) = .rightMouseDown ∧
    cgEventTypeFrom (.right, .up) = .rightMouseUp ∧
    cgEventTypeFrom (.right, .dragged) = .rightMouseDragged ∧
    cgEventTypeFrom (.left, .moved) = .mouseMoved ∧
    cgEventTypeFrom (.right, .moved) = .mouseMoved ∧
    cgEventTypeFrom (.left, .down) ≠ cgEventTypeFrom (.right, .down) := by
  decide

/-- C7: writing a flag set with `set_flags` and reading with `flags`
returns exactly the written set, and `enable_flags` is the
read-modify-write that leaves the flags equal to the previous flags
bitwise-ORed with the given set. -/
theorem flags_roundtrip_and_enable (e : QuartzEventState) (f g : ℕ) :
    Event.flags (Event.set_flags e f) = f ∧
    Event.flags (Event.enable_flags e g) = Nat.lor (Event.flags e) g :=
  ⟨rfl, rfl⟩

/-- C8: posting the same event value any number of times leaves the
in-process event state unchanged — the event after `n` posts is the
original, its flags are unchanged — while each post appends one entry to
the global stream. -/
theorem post_preserves_event_state (n : ℕ) (e : QuartzEventState)
    (loc : EventLocation) (s : List (ℕ × QuartzEventState)) :
    (Event.postN n e loc s).1 = e ∧
    Event.flags (Event.postN n e loc s).1 = Event.flags e ∧
    (Event.postN n e loc s).2.length = s.length + n := by
  induction n generalizing s with
  | zero => exact ⟨rfl, rfl, by simp [Event.postN]⟩
  | succ n ih =>
      obtain ⟨h1, h2, h3⟩ := ih (s ++ [(eventLocationCode loc, e)])
      refine ⟨h1, h2, ?_⟩
      show (Event.postN n e loc
        (s ++ [(eventLocationCode loc, e)])).2.length = s.length + (n + 1)
      rw [h3]
      simp
      omega

/-- C9: advancing a `LocationIter` always yields a value, namely a fresh
live query of the current cursor position; the size hint is the
unbounded pair of the maximal lower bound and no upper bound; and the
result of an advance is independent of which iterator instance performs
it, since the iterator holds no cached location. -/
theorem location_iter_unbounded_fresh (it it2 : LocationIter)
    (os : ℕ → Location) (t : ℕ) :
    (it.next os t).isSome = true ∧
    it.next os t = some (os t) ∧
    it.size_hint = (2 ^ 64 - 1, none) ∧
    it.next os t = it2.next os t :=
  ⟨rfl, rfl, rfl, rfl⟩

/-- C10: `App::pid` returns `None` exactly when the native
`processIdentifier` query reports the sentinel `-1`, and `Some` of the
reported identifier for every other reported value. -/
theorem app_pid_sentinel (r : ℤ) :
    (App.pid r = none ↔ r = -1) ∧ (r ≠ -1 → App.pid r = some r) := by
  constructor
  · constructor
    · intro h
      by_contra hne
      simp [App.pid, hne] at h
    · intro h
      simp [App.pid, h]
  · intro h
    simp [App.pid, h]

/-- C10 witness: the sentinel theorem applied at the reported values
`42` and `-1`. -/
theorem app_pid_sentinel_witness :
    App.pid 42 = some 42 ∧ App.pid (-1) = none :=
  ⟨(app_pid_sentinel 42).2 (by decide), (app_pid_sentinel (-1)).1.mpr rfl⟩
